import Mathlib

/-!
Shallow embedding of the poke-pipeline ingestion script (src/main.py) and
verification of its specification.

The script is a linear loop around three operations:
  * `get_api_url`  (configuration reader, main.py lines 9-36)
  * `get_data`     (page fetcher, main.py lines 40-62)
  * `load_data`    (page writer, main.py lines 66-94)
  * `main`         (driver loop, main.py lines 96-113)

Python exceptions are modelled by the inductive `Exc`; fallible functions
return `Except Exc _`.  The filesystem is an explicit state `FS` (a set of
created directories plus an association list of written files); the network
is a function from URL to response carried in a `World`.  File contents are
modelled as the JSON-serialised `results` sequence, represented by the list
of items itself (the serialisation is injective on this model).
-/

set_option autoImplicit false

namespace PokePipeline

/-- Python exception classes that the script can raise.  The classes mirror
Python semantics: `configparser.NoSectionError` and `configparser.NoOptionError`
derive from `configparser.Error`, NOT from `KeyError`, which is why they are
separate constructors from `keyError`. `httpError` models
`requests.exceptions.HTTPError`; the Python message embeds the status code,
modelled here as a payload. -/
inductive Exc where
  | fileNotFoundError (msg : String)
  | noSectionError (sec : String)
  | noOptionError (opt : String)
  | keyError (msg : String)
  | httpError (status : Nat)
  | parseError (msg : String)
  | valueError (msg : String)
  | attributeError (msg : String)
  | indexError (msg : String)
  deriving DecidableEq

/-- True exactly for the constructor modelling Python `KeyError`; used to
embed the `except KeyError` clause of `get_api_url` (main.py line 33). -/
def Exc.isKeyError : Exc → Bool
  | Exc.keyError _ => true
  | _ => false

/-- Membership in the typed error taxonomy of the specification (section 7):
ConfigMissing, ConfigKeyMissing, HttpError, ParseError, EmptyResultsError.
`noSectionError`, `noOptionError`, `attributeError` and `indexError` fall
outside the taxonomy. -/
def Exc.inTaxonomy : Exc → Bool
  | Exc.fileNotFoundError _ => true
  | Exc.keyError _ => true
  | Exc.httpError _ => true
  | Exc.parseError _ => true
  | Exc.valueError _ => true
  | _ => false

/-- Decidable equality for `Except`, so that concrete runs of the embedded
operations can be checked by evaluation. -/
instance {α β : Type} [DecidableEq α] [DecidableEq β] : DecidableEq (Except α β) := fun a b =>
  match a, b with
  | Except.ok x, Except.ok y =>
    if h : x = y then isTrue (by rw [h]) else isFalse (fun hc => h (Except.ok.inj hc))
  | Except.error x, Except.error y =>
    if h : x = y then isTrue (by rw [h]) else isFalse (fun hc => h (Except.error.inj hc))
  | Except.ok _, Except.error _ => isFalse (fun hc => Except.noConfusion hc)
  | Except.error _, Except.ok _ => isFalse (fun hc => Except.noConfusion hc)

/-- State of the configuration file at the fixed path (config/api.conf):
whether the file exists, and its parsed sections (section name to list of
key/value options, as `ConfigParser` would expose them). -/
structure ConfigState where
  fileExists : Bool
  sections : List (String × List (String × String))
  deriving DecidableEq

/-- Association-list lookup used for configuration sections and for the
modelled filesystem: returns the first value bound to the key. -/
def alist {α : Type} : List (String × α) → String → Option α
  | [], _ => none
  | (k, v) :: rest, key => if k = key then some v else alist rest key

/-- Embedding of `ConfigParser.get(section, option)`: raises
`NoSectionError` when the section is absent and `NoOptionError` when the
section exists but lacks the option (Python `configparser` semantics; these
are not `KeyError`s). -/
def configGet (cfg : ConfigState) (sec opt : String) : Except Exc String :=
  match alist cfg.sections sec with
  | none => Except.error (Exc.noSectionError sec)
  | some opts =>
    match alist opts opt with
    | none => Except.error (Exc.noOptionError opt)
    | some v => Except.ok v

/-- Embedding of `get_api_url` (main.py lines 9-36): checks that the
configuration file exists, reads section `api` key `api_url`, wraps a
`KeyError` (and only a `KeyError`) into a new `KeyError` about the missing
key, and returns the configured URL with the decimal rendering of `limit`
appended (the f-string on line 36). -/
def get_api_url (cfg : ConfigState) (limit : Int) : Except Exc String :=
  if cfg.fileExists = false then
    Except.error (Exc.fileNotFoundError "Configuration file config/api.conf not found.")
  else
    match configGet cfg "api" "api_url" with
    | Except.ok api_url => Except.ok (api_url ++ toString limit)
    | Except.error e =>
      if e.isKeyError then
        Except.error (Exc.keyError "Missing api_url in the api section of the config file.")
      else
        Except.error e

/-- An element of the `results` sequence.  Only the `url` field is ever
read by the script (`last_pokemon.get("url")`, main.py line 87); `none`
models an item without a `url` key, for which `.get` returns Python `None`. -/
structure Item where
  url : Option String
  deriving DecidableEq

/-- A parsed page response.  `results` is `none` when the key is absent;
`next` is `none` when the key is absent or its value is JSON `null`
(both give Python `None` under `data.get("next")`). -/
structure PageData where
  results : Option (List Item)
  next : Option String
  deriving DecidableEq

/-- An HTTP response: its status code, and the outcome of parsing its body
as JSON (`response.json()`), which fails with a `parseError` on a body that
is not valid JSON. -/
structure HttpResponse where
  status_code : Nat
  jsonBody : Except Exc PageData

/-- The deterministic outside world of one run: the configuration file
state, the network (one response per URL), and the value of
`datetime.now().strftime("%Y-%m-%d")`. -/
structure World where
  config : ConfigState
  net : String → HttpResponse
  today : String

/-- URL resolution at the top of `get_data` (main.py lines 54-55): an
absent argument is replaced by `get_api_url()` with the default limit 50. -/
def resolve_url (w : World) (api_url : Option String) : Except Exc String :=
  match api_url with
  | none => get_api_url w.config 50
  | some u => Except.ok u

/-- Embedding of `get_data` (main.py lines 40-62).  The first component
records the URLs actually requested over the network (empty when the
configuration lookup fails before any request).  After the GET, a status
code different from 200 raises `HTTPError` carrying the status (strict
equality on line 59); on status 200 the body is parsed as JSON and
returned. -/
def get_data (w : World) (api_url : Option String) : List String × Except Exc PageData :=
  match resolve_url w api_url with
  | Except.error e => ([], Except.error e)
  | Except.ok url =>
    let response := w.net url
    ([url],
      if response.status_code = 200 then response.jsonBody
      else Except.error (Exc.httpError response.status_code))

/-- Filesystem state: the set of directories that exist (as a list of
paths) and the files written, as an association list from path to content,
where content is the JSON-serialised `results` sequence modelled by the
item list itself. -/
structure FS where
  dirs : List String
  files : List (String × List Item)
  deriving DecidableEq

/-- Embedding of `Path.mkdir(parents=True, exist_ok=True)` (main.py
line 79): creates every path in the list that does not already exist, and
is a no-op on paths that do (idempotent). -/
def mkdir_p (fs : FS) (paths : List String) : FS :=
  { fs with dirs := fs.dirs ++ paths.filter (fun p => !(fs.dirs.contains p)) }

/-- Embedding of `open(file_path, "w")` followed by `json.dump` (main.py
lines 92-93): truncates/overwrites any existing file at the path, leaving
exactly one entry for it. -/
def writeFile (fs : FS) (path : String) (content : List Item) : FS :=
  { fs with files := fs.files.filter (fun kv => !(kv.1 = path : Bool)) ++ [(path, content)] }

/-- Embedding of Python `str.split` with the single-character separator
used by the script (a slash, main.py line 87).  Python returns the possibly
empty substrings between occurrences of the separator: `"a//b".split("/")`
is `["a", "", "b"]` and `"".split("/")` is `[""]`; `List.splitOn` on the
character list has exactly these semantics. -/
def pySplit (s : String) (c : Char) : List String :=
  (s.toList.splitOn c).map (fun cs => String.mk cs)

/-- The empty filesystem a fresh run starts from. -/
def fs0 : FS := { dirs := [], files := [] }

/-- Embedding of `load_data` (main.py lines 66-94).  Returns the
filesystem state after the call together with the outcome.  Note the
directory is created (line 79) BEFORE the `results` check (line 83), so
the directory side effect happens even on the error path.  A missing
`url` on the last item raises `AttributeError` (Python `None.split`), and
a split with fewer than two segments raises `IndexError` (Python `[-2]`). -/
def load_data (today : String) (data : PageData) (fs : FS) : FS × Except Exc Unit :=
  let folder_path := "data/" ++ today
  let fs1 := mkdir_p fs ["data", folder_path]
  match data.results with
  | none =>
    (fs1, Except.error (Exc.valueError "results key is missing or empty in the provided data."))
  | some [] =>
    (fs1, Except.error (Exc.valueError "results key is missing or empty in the provided data."))
  | some (r :: rs) =>
    let last_pokemon := (r :: rs).getLast (List.cons_ne_nil r rs)
    match last_pokemon.url with
    | none => (fs1, Except.error (Exc.attributeError "NoneType object has no attribute split"))
    | some u =>
      let segs := pySplit u '/'
      if segs.length < 2 then
        (fs1, Except.error (Exc.indexError "list index out of range"))
      else
        let last_id := segs.getD (segs.length - 2) ""
        let file_path := folder_path ++ "/" ++ last_id ++ ".json"
        (writeFile fs1 file_path (r :: rs), Except.ok ())

/-- Python truthiness of `data.get("results")`: `None` and the empty list
are falsy (`if not results:`, main.py line 83). -/
def resultsTruthy : Option (List Item) → Bool
  | none => false
  | some l => !l.isEmpty

/-- The identifier extracted by lines 86-87 when every step succeeds:
second-from-end segment of splitting the last item url on a slash;
`none` whenever `load_data` would raise instead of writing. -/
def extractId (data : PageData) : Option String :=
  match data.results with
  | none => none
  | some [] => none
  | some (r :: rs) =>
    match ((r :: rs).getLast (List.cons_ne_nil r rs)).url with
    | none => none
    | some u =>
      let segs := pySplit u '/'
      if segs.length < 2 then none
      else some (segs.getD (segs.length - 2) "")

/-- The output path `data/<date>/<id>.json` derived from a response, when
the identifier extraction succeeds. -/
def pathFor (today : String) (data : PageData) : Option String :=
  match extractId data with
  | none => none
  | some i => some ("data/" ++ today ++ "/" ++ i ++ ".json")

/-- Log events emitted by the driver loop: the error log of the `except`
clause (line 112), the completion log (line 105), and the next-page log
(line 109). -/
inductive LogEvent where
  | errorLog (e : Exc)
  | doneLog
  | nextLog (url : String)
  deriving DecidableEq

/-- How a run of the driver loop ended: clean exit on exhausted pagination
(DONE), exit via the `except` clause (FAILED), or out of modelling fuel. -/
inductive Outcome where
  | done
  | failed (e : Exc)
  | fuelOut (url : Option String)
  deriving DecidableEq

/-- Observable state threaded through the driver loop: the filesystem, the
log stream, and the list of URLs actually requested over the network, in
order. -/
structure RunState where
  fs : FS
  log : List LogEvent
  fetched : List String
  deriving DecidableEq

/-- Embedding of the `while True` loop of `main` (main.py lines 96-113),
with explicit fuel for termination.  Each iteration fetches, persists,
then reads `next`: a falsy `next` (absent, null or the empty string,
`if not next_url:` on line 104) logs completion and exits; otherwise the
loop recurses on the new URL after logging it.  Any error from fetch or
persist is logged and breaks the loop immediately. -/
def mainLoop (w : World) : Nat → Option String → RunState → RunState × Outcome
  | 0, url, st => (st, Outcome.fuelOut url)
  | Nat.succ fuel, url, st =>
    let gd := get_data w url
    let st1 : RunState := { st with fetched := st.fetched ++ gd.1 }
    match gd.2 with
    | Except.error e =>
      ({ st1 with log := st1.log ++ [LogEvent.errorLog e] }, Outcome.failed e)
    | Except.ok data =>
      let ld := load_data w.today data st1.fs
      match ld.2 with
      | Except.error e =>
        ({ st1 with fs := ld.1, log := st1.log ++ [LogEvent.errorLog e] }, Outcome.failed e)
      | Except.ok _ =>
        let st2 : RunState := { st1 with fs := ld.1 }
        match data.next with
        | none => ({ st2 with log := st2.log ++ [LogEvent.doneLog] }, Outcome.done)
        | some nu =>
          if nu.isEmpty then
            ({ st2 with log := st2.log ++ [LogEvent.doneLog] }, Outcome.done)
          else
            mainLoop w fuel (some nu) { st2 with log := st2.log ++ [LogEvent.nextLog nu] }

/-- A full run of `main`: start in FETCHING with no URL (line 97), an
empty log and no requests issued yet, over the given filesystem. -/
def main_run (w : World) (fuel : Nat) (fs : FS) : RunState × Outcome :=
  mainLoop w fuel none { fs := fs, log := [], fetched := [] }

/-- A world whose single configured endpoint always answers with HTTP
status 500; exercises the failure path of the driver loop. -/
def w500 : World :=
  { config := { fileExists := true, sections := [("api", [("api_url", "https://a/?limit=")])] }
    net := fun _ => { status_code := 500, jsonBody := Except.error (Exc.parseError "no body") }
    today := "2026-01-01" }

/-- A world whose first page carries the empty string as its `next` link
and whose other URLs serve a distinguishable second page; measures what
the loop does on an empty-string `next`. -/
def wEmptyNext : World :=
  { config := { fileExists := true, sections := [("api", [("api_url", "https://a/?limit=")])] }
    net := fun u =>
      if u = "https://a/?limit=50" then
        { status_code := 200
          jsonBody := Except.ok { results := some [{ url := some "p/1/" }], next := some "" } }
      else
        { status_code := 200
          jsonBody := Except.ok { results := some [{ url := some "p/2/" }], next := none } }
    today := "2026-01-01" }

/-- A world with two pages: the first page links to the second through its
`next` field and the second ends the pagination; exercises the happy path
of the driver loop. -/
def wTwoPages : World :=
  { config := { fileExists := true, sections := [("api", [("api_url", "https://a/?limit=")])] }
    net := fun u =>
      if u = "https://a/?limit=50" then
        { status_code := 200
          jsonBody := Except.ok
            { results := some [{ url := some "p/1/" }], next := some "https://a/?page=2" } }
      else
        { status_code := 200
          jsonBody := Except.ok { results := some [{ url := some "p/2/" }], next := none } }
    today := "2026-01-01" }

/-! Helper lemmas about the filesystem model. -/

theorem mkdir_p_files (fs : FS) (ps : List String) : (mkdir_p fs ps).files = fs.files := rfl

theorem writeFile_dirs (fs : FS) (p : String) (c : List Item) :
    (writeFile fs p c).dirs = fs.dirs := rfl

theorem mkdir_p_mem (fs : FS) (ps : List String) (p : String) (h : p ∈ ps) :
    p ∈ (mkdir_p fs ps).dirs := by
  by_cases hc : p ∈ fs.dirs
  · exact List.mem_append.mpr (Or.inl hc)
  · refine List.mem_append.mpr (Or.inr ?_)
    refine List.mem_filter.mpr ⟨h, ?_⟩
    simp [hc]

theorem alist_filter_append {α : Type} (l : List (String × α)) (p : String) (c : α) :
    alist (l.filter (fun kv => !(kv.1 = p : Bool)) ++ [(p, c)]) p = some c := by
  induction l with
  | nil => simp [alist]
  | cons kv rest ih =>
    by_cases h : kv.1 = p
    · simpa [h] using ih
    · simpa [List.filter_cons, h, alist] using ih

theorem alist_writeFile (fs : FS) (p : String) (c : List Item) :
    alist (writeFile fs p c).files p = some c :=
  alist_filter_append fs.files p c

theorem filter_filter_append {α : Type} (l : List (String × α)) (p : String) (c : α) :
    ((l.filter (fun kv => !(kv.1 = p : Bool)) ++ [(p, c)]).filter
      (fun kv => (kv.1 = p : Bool))).length = 1 := by
  induction l with
  | nil => simp
  | cons kv rest ih =>
    by_cases h : kv.1 = p
    · simp only [List.filter_cons, h]
      simp
    · simp only [List.filter_cons, h]
      simp [h]

theorem writeFile_count (fs : FS) (p : String) (c : List Item) :
    ((writeFile fs p c).files.filter (fun kv => (kv.1 = p : Bool))).length = 1 :=
  filter_filter_append fs.files p c

/-! Equation lemmas for the branches of `load_data`. -/

theorem ld_none (today : String) (fs : FS) (data : PageData) (h : data.results = none) :
    load_data today data fs
      = (mkdir_p fs ["data", "data/" ++ today],
         Except.error (Exc.valueError "results key is missing or empty in the provided data.")) := by
  simp [load_data, h]

theorem ld_nil (today : String) (fs : FS) (data : PageData) (h : data.results = some []) :
    load_data today data fs
      = (mkdir_p fs ["data", "data/" ++ today],
         Except.error (Exc.valueError "results key is missing or empty in the provided data.")) := by
  simp [load_data, h]

theorem ld_noUrl (today : String) (fs : FS) (data : PageData) (r : Item) (rs : List Item)
    (hres : data.results = some (r :: rs))
    (hurl : ((r :: rs).getLast (List.cons_ne_nil r rs)).url = none) :
    load_data today data fs
      = (mkdir_p fs ["data", "data/" ++ today],
         Except.error (Exc.attributeError "NoneType object has no attribute split")) := by
  simp [load_data, hres, hurl]

theorem ld_short (today : String) (fs : FS) (data : PageData) (r : Item) (rs : List Item)
    (hres : data.results = some (r :: rs)) (u : String)
    (hurl : ((r :: rs).getLast (List.cons_ne_nil r rs)).url = some u)
    (hlen : (pySplit u '/').length < 2) :
    load_data today data fs
      = (mkdir_p fs ["data", "data/" ++ today],
         Except.error (Exc.indexError "list index out of range")) := by
  simp [load_data, hres, hurl, hlen]

theorem ld_write (today : String) (fs : FS) (data : PageData) (r : Item) (rs : List Item)
    (hres : data.results = some (r :: rs)) (u : String)
    (hurl : ((r :: rs).getLast (List.cons_ne_nil r rs)).url = some u)
    (hlen : ¬ (pySplit u '/').length < 2) :
    load_data today data fs
      = (writeFile (mkdir_p fs ["data", "data/" ++ today])
          ("data/" ++ today ++ "/" ++ (pySplit u '/').getD ((pySplit u '/').length - 2) ""
            ++ ".json")
          (r :: rs),
         Except.ok ()) := by
  simp [load_data, hres, hurl, hlen]

theorem extractId_write (data : PageData) (r : Item) (rs : List Item)
    (hres : data.results = some (r :: rs)) (u : String)
    (hurl : ((r :: rs).getLast (List.cons_ne_nil r rs)).url = some u)
    (hlen : ¬ (pySplit u '/').length < 2) :
    extractId data = some ((pySplit u '/').getD ((pySplit u '/').length - 2) "") := by
  simp [extractId, hres, hurl, hlen]

/-- On a response whose identifier extraction succeeds, `load_data` writes
the results to the path given by `pathFor` and succeeds. -/
theorem load_data_of_pathFor (today : String) (fs : FS) (data : PageData) (p : String)
    (h : pathFor today data = some p) :
    ∃ l, data.results = some l ∧
      load_data today data fs
        = (writeFile (mkdir_p fs ["data", "data/" ++ today]) p l, Except.ok ()) := by
  rcases hres : data.results with _ | l
  · simp [pathFor, extractId, hres] at h
  · rcases l with _ | ⟨r, rs⟩
    · simp [pathFor, extractId, hres] at h
    · rcases hurl : ((r :: rs).getLast (List.cons_ne_nil r rs)).url with _ | u
      · simp [pathFor, extractId, hres, hurl] at h
      · by_cases hlen : (pySplit u '/').length < 2
        · simp [pathFor, extractId, hres, hurl, hlen] at h
        · have hp : "data/" ++ today ++ "/"
              ++ (pySplit u '/').getD ((pySplit u '/').length - 2) "" ++ ".json" = p := by
            simpa [pathFor, extractId, hres, hurl, hlen] using h
          refine ⟨r :: rs, rfl, ?_⟩
          rw [ld_write today fs data r rs hres u hurl hlen, hp]

/-- When the identifier extraction fails at any point, `load_data` raises:
the call returns the error of the branch that failed, over the filesystem
with only the dated directory added. -/
theorem ld_err_of_extractId_none (today : String) (fs : FS) (data : PageData)
    (h : extractId data = none) :
    ∃ e, load_data today data fs
      = (mkdir_p fs ["data", "data/" ++ today], Except.error e) := by
  rcases hres : data.results with _ | l
  · exact ⟨_, ld_none today fs data hres⟩
  · rcases l with _ | ⟨r, rs⟩
    · exact ⟨_, ld_nil today fs data hres⟩
    · rcases hurl : ((r :: rs).getLast (List.cons_ne_nil r rs)).url with _ | u
      · exact ⟨_, ld_noUrl today fs data r rs hres hurl⟩
      · by_cases hlen : (pySplit u '/').length < 2
        · exact ⟨_, ld_short today fs data r rs hres u hurl hlen⟩
        · rw [extractId_write data r rs hres u hurl hlen] at h
          cases h

/-! Unfolding and branch lemmas for the driver loop. -/

theorem mainLoop_zero (w : World) (url : Option String) (st : RunState) :
    mainLoop w 0 url st = (st, Outcome.fuelOut url) := rfl

theorem mainLoop_succ (w : World) (fuel : Nat) (url : Option String) (st : RunState) :
    mainLoop w (fuel + 1) url st =
      (let gd := get_data w url
       let st1 : RunState := { st with fetched := st.fetched ++ gd.1 }
       match gd.2 with
       | Except.error e =>
         ({ st1 with log := st1.log ++ [LogEvent.errorLog e] }, Outcome.failed e)
       | Except.ok data =>
         let ld := load_data w.today data st1.fs
         match ld.2 with
         | Except.error e =>
           ({ st1 with fs := ld.1, log := st1.log ++ [LogEvent.errorLog e] }, Outcome.failed e)
         | Except.ok _ =>
           let st2 : RunState := { st1 with fs := ld.1 }
           match data.next with
           | none => ({ st2 with log := st2.log ++ [LogEvent.doneLog] }, Outcome.done)
           | some nu =>
             if nu.isEmpty then
               ({ st2 with log := st2.log ++ [LogEvent.doneLog] }, Outcome.done)
             else
               mainLoop w fuel (some nu) { st2 with log := st2.log ++ [LogEvent.nextLog nu] }) :=
  rfl

theorem mainLoop_fetch_err (w : World) (fuel : Nat) (url : Option String) (st : RunState)
    (e : Exc) (h : (get_data w url).2 = Except.error e) :
    mainLoop w (fuel + 1) url st
      = ({ st with
           fetched := st.fetched ++ (get_data w url).1
           log := st.log ++ [LogEvent.errorLog e] }, Outcome.failed e) := by
  rw [mainLoop_succ]
  simp [h]

theorem mainLoop_persist_err (w : World) (fuel : Nat) (url : Option String) (st : RunState)
    (data : PageData) (e : Exc)
    (hd : (get_data w url).2 = Except.ok data)
    (hl : (load_data w.today data st.fs).2 = Except.error e) :
    mainLoop w (fuel + 1) url st
      = ({ st with
           fetched := st.fetched ++ (get_data w url).1
           fs := (load_data w.today data st.fs).1
           log := st.log ++ [LogEvent.errorLog e] }, Outcome.failed e) := by
  rw [mainLoop_succ]
  simp [hd, hl]

theorem mainLoop_done (w : World) (fuel : Nat) (url : Option String) (st : RunState)
    (data : PageData)
    (hd : (get_data w url).2 = Except.ok data)
    (hl : (load_data w.today data st.fs).2 = Except.ok ())
    (hn : data.next = none ∨ data.next = some "") :
    mainLoop w (fuel + 1) url st
      = ({ st with
           fetched := st.fetched ++ (get_data w url).1
           fs := (load_data w.today data st.fs).1
           log := st.log ++ [LogEvent.doneLog] }, Outcome.done) := by
  rw [mainLoop_succ]
  rcases hn with hn | hn
  · simp [hd, hl, hn]
  · have hemp : ("" : String).isEmpty = true := rfl
    simp [hd, hl, hn, hemp]

theorem mainLoop_next (w : World) (fuel : Nat) (url : Option String) (st : RunState)
    (data : PageData) (nu : String)
    (hd : (get_data w url).2 = Except.ok data)
    (hl : (load_data w.today data st.fs).2 = Except.ok ())
    (hn : data.next = some nu) (hne : nu ≠ "") :
    mainLoop w (fuel + 1) url st
      = mainLoop w fuel (some nu)
          { st with
            fetched := st.fetched ++ (get_data w url).1
            fs := (load_data w.today data st.fs).1
            log := st.log ++ [LogEvent.nextLog nu] } := by
  rw [mainLoop_succ]
  have he : nu.isEmpty = false := by
    rw [Bool.eq_false_iff]
    intro hcontra
    exact hne ((String.isEmpty_iff nu).mp hcontra)
  simp [hd, hl, hn, he]

theorem mainLoop_fetched_mono (w : World) :
    ∀ (fuel : Nat) (url : Option String) (st : RunState),
      ∃ t, ((mainLoop w fuel url st).1).fetched = st.fetched ++ t := by
  intro fuel
  induction fuel with
  | zero =>
    intro url st
    exact ⟨[], by simp [mainLoop_zero]⟩
  | succ n ih =>
    intro url st
    rcases hg : (get_data w url).2 with e | data
    · exact ⟨(get_data w url).1, by rw [mainLoop_fetch_err w n url st e hg]⟩
    · rcases hl : (load_data w.today data st.fs).2 with e | u
      · exact ⟨(get_data w url).1, by rw [mainLoop_persist_err w n url st data e hg hl]⟩
      · obtain rfl : u = () := rfl
        rcases hn : data.next with _ | nu
        · exact ⟨(get_data w url).1, by rw [mainLoop_done w n url st data hg hl (Or.inl hn)]⟩
        · by_cases he : nu = ""
          · subst he
            exact ⟨(get_data w url).1, by rw [mainLoop_done w n url st data hg hl (Or.inr hn)]⟩
          · obtain ⟨t2, ht2⟩ := ih (some nu)
              { st with
                fetched := st.fetched ++ (get_data w url).1
                fs := (load_data w.today data st.fs).1
                log := st.log ++ [LogEvent.nextLog nu] }
            refine ⟨(get_data w url).1 ++ t2, ?_⟩
            rw [mainLoop_next w n url st data nu hg hl hn he, ht2]
            simp

theorem mainLoop_succ_fetched (w : World) (fuel : Nat) (url : Option String) (st : RunState) :
    ∃ rest, ((mainLoop w (fuel + 1) url st).1).fetched
      = st.fetched ++ (get_data w url).1 ++ rest := by
  rcases hg : (get_data w url).2 with e | data
  · exact ⟨[], by rw [mainLoop_fetch_err w fuel url st e hg]; simp⟩
  · rcases hl : (load_data w.today data st.fs).2 with e | u
    · exact ⟨[], by rw [mainLoop_persist_err w fuel url st data e hg hl]; simp⟩
    · obtain rfl : u = () := rfl
      rcases hn : data.next with _ | nu
      · exact ⟨[], by rw [mainLoop_done w fuel url st data hg hl (Or.inl hn)]; simp⟩
      · by_cases he : nu = ""
        · subst he
          exact ⟨[], by rw [mainLoop_done w fuel url st data hg hl (Or.inr hn)]; simp⟩
        · obtain ⟨t2, ht2⟩ := mainLoop_fetched_mono w fuel (some nu)
            { st with
              fetched := st.fetched ++ (get_data w url).1
              fs := (load_data w.today data st.fs).1
              log := st.log ++ [LogEvent.nextLog nu] }
          refine ⟨t2, ?_⟩
          rw [mainLoop_next w fuel url st data nu hg hl hn he, ht2]

/-! The claims. -/

/-- Claim C3: with a configuration whose `api_url` value is the string `s`,
`get_api_url limit` returns exactly the concatenation of `s` with the
decimal rendering of `limit`, with no encoding or separator added. -/
theorem claim_C3 (cfg : ConfigState) (limit : Int) (s : String)
    (hex : cfg.fileExists = true)
    (hget : configGet cfg "api" "api_url" = Except.ok s) :
    get_api_url cfg limit = Except.ok (s ++ toString limit) := by
  simp [get_api_url, hex, hget]

/-- Claim C3, witness: with `api_url = "https://x/?limit="` and limit 50 the
resolved first-page URL is exactly `"https://x/?limit=50"`. -/
theorem claim_C3_witness :
    get_api_url { fileExists := true, sections := [("api", [("api_url", "https://x/?limit=")])] } 50
      = Except.ok "https://x/?limit=50" := by
  have h := claim_C3
    { fileExists := true, sections := [("api", [("api_url", "https://x/?limit=")])] } 50
    "https://x/?limit=" rfl (by decide)
  rw [h]
  decide

/-- Claim C4 (code bug): when the configuration file exists but lacks the
`api` section or the `api_url` key, `get_api_url` raises
`configparser.NoSectionError` or `configparser.NoOptionError`, neither of
which is the `KeyError` promised by the claim and by the docstring of the
function: the `except KeyError` clause on main.py line 33 never matches a
configparser error.  The `FileNotFoundError` half of the claim does hold. -/
theorem claim_C4 :
    get_api_url { fileExists := false, sections := [] } 50
      = Except.error (Exc.fileNotFoundError "Configuration file config/api.conf not found.")
    ∧ get_api_url { fileExists := true, sections := [] } 50
      = Except.error (Exc.noSectionError "api")
    ∧ get_api_url { fileExists := true, sections := [("api", [])] } 50
      = Except.error (Exc.noOptionError "api_url")
    ∧ Exc.isKeyError (Exc.noSectionError "api") = false
    ∧ Exc.isKeyError (Exc.noOptionError "api_url") = false :=
  ⟨rfl, rfl, rfl, rfl, rfl⟩

/-- Claim C2: after a successful URL resolution, a response status code
different from 200 (201, 204, 404, 500, ...) makes `get_data` raise
`HTTPError` carrying that status — strict equality with 200, not a range
check — and on status 200 the body parsed as JSON is returned. -/
theorem claim_C2 (w : World) (api_url : Option String) (u : String)
    (h : resolve_url w api_url = Except.ok u) :
    ((w.net u).status_code ≠ 200 →
      (get_data w api_url).2 = Except.error (Exc.httpError (w.net u).status_code))
    ∧ ((w.net u).status_code = 200 →
      (get_data w api_url).2 = (w.net u).jsonBody) := by
  constructor
  · intro hne
    simp [get_data, h, hne]
  · intro heq
    simp [get_data, h, heq]

/-- Claim C2, witness: status 201 — a 2xx code — is rejected with
`HTTPError` carrying 201. -/
theorem claim_C2_witness :
    (get_data
      { config := { fileExists := false, sections := [] }
        net := fun _ => { status_code := 201, jsonBody := Except.error (Exc.parseError "x") }
        today := "2026-01-01" }
      (some "https://a/b")).2 = Except.error (Exc.httpError 201) := by
  have h := claim_C2
    { config := { fileExists := false, sections := [] }
      net := fun _ => { status_code := 201, jsonBody := Except.error (Exc.parseError "x") }
      today := "2026-01-01" }
    (some "https://a/b") "https://a/b" rfl
  exact h.1 (by decide)

/-- Claim C1, counterexample: a response whose `results` has one element —
an item without a `url` field — makes `load_data` raise `AttributeError`
and write no file, refuting the part of the claim that says a response
with at least one result element always succeeds with a file written. -/
theorem claim_C1_cex :
    (({ results := some [{ url := none }], next := none } : PageData).results
        = some [{ url := none }])
    ∧ (load_data "2026-01-01" { results := some [{ url := none }], next := none } fs0).2
        = Except.error (Exc.attributeError "NoneType object has no attribute split")
    ∧ ((load_data "2026-01-01" { results := some [{ url := none }], next := none } fs0).1).files
        = fs0.files :=
  ⟨rfl, rfl, rfl⟩

/-- Claim C1 (amended): `load_data` raises `EmptyResultsError` (a
`ValueError`) and writes no file when `results` is absent or empty; it
succeeds if and only if `results` is non-empty AND the last item yields a
well-formed identifier, in which case the results sequence is written to
the derived path; on every failure path no file is written. -/
theorem claim_C1 (today : String) (data : PageData) (fs : FS) :
    (resultsTruthy data.results = false →
      (load_data today data fs).2
        = Except.error (Exc.valueError "results key is missing or empty in the provided data.")
      ∧ ((load_data today data fs).1).files = fs.files)
    ∧ ((load_data today data fs).2 = Except.ok () ↔ (extractId data).isSome = true)
    ∧ (extractId data = none → ((load_data today data fs).1).files = fs.files)
    ∧ (∀ p, pathFor today data = some p →
        ∃ l, data.results = some l ∧ alist ((load_data today data fs).1).files p = some l) := by
  refine ⟨?_, ?_, ?_, ?_⟩
  · intro h
    rcases hres : data.results with _ | l
    · rw [ld_none today fs data hres]
      exact ⟨rfl, rfl⟩
    · rcases l with _ | ⟨r, rs⟩
      · rw [ld_nil today fs data hres]
        exact ⟨rfl, rfl⟩
      · rw [hres] at h
        simp [resultsTruthy] at h
  · constructor
    · intro hok
      cases hid : extractId data with
      | some i => simp
      | none =>
        obtain ⟨e, he⟩ := ld_err_of_extractId_none today fs data hid
        rw [he] at hok
        simp at hok
    · intro hsome
      obtain ⟨i, hi⟩ := Option.isSome_iff_exists.mp hsome
      have hp : pathFor today data = some ("data/" ++ today ++ "/" ++ i ++ ".json") := by
        simp [pathFor, hi]
      obtain ⟨l, _, heq⟩ := load_data_of_pathFor today fs data _ hp
      rw [heq]
  · intro hid
    obtain ⟨e, he⟩ := ld_err_of_extractId_none today fs data hid
    rw [he]
    rfl
  · intro p hp
    obtain ⟨l, hl, heq⟩ := load_data_of_pathFor today fs data p hp
    exact ⟨l, hl, by rw [heq]; exact alist_writeFile _ p l⟩

/-- Claim C1, witness: an empty `results` raises the `ValueError`, and a
well-formed single result is persisted successfully. -/
theorem claim_C1_witness :
    (load_data "2026-01-01" { results := some [], next := none } fs0).2
      = Except.error (Exc.valueError "results key is missing or empty in the provided data.")
    ∧ (load_data "2026-01-01"
        { results := some [{ url := some "https://a/items/7/" }], next := none } fs0).2
      = Except.ok () := by
  constructor
  · exact ((claim_C1 "2026-01-01" { results := some [], next := none } fs0).1 rfl).1
  · exact ((claim_C1 "2026-01-01"
      { results := some [{ url := some "https://a/items/7/" }], next := none } fs0).2.1).mpr
      (by decide)

/-- Claim C5: on a response with non-empty `results` whose last item has a
`url` with at least two slash-delimited segments, `load_data` succeeds and
writes exactly the results sequence to `data/<date>/<id>.json`, where the
identifier is the second-from-end segment of splitting that url on the
slash. -/
theorem claim_C5 (today : String) (fs : FS) (data : PageData) (r : Item) (rs : List Item)
    (hres : data.results = some (r :: rs)) (u : String)
    (hurl : ((r :: rs).getLast (List.cons_ne_nil r rs)).url = some u)
    (hlen : 2 ≤ (pySplit u '/').length) :
    (load_data today data fs).2 = Except.ok ()
    ∧ alist ((load_data today data fs).1).files
        ("data/" ++ today ++ "/"
          ++ (pySplit u '/').getD ((pySplit u '/').length - 2) "" ++ ".json")
      = some (r :: rs) := by
  have hlen2 : ¬ (pySplit u '/').length < 2 := by omega
  rw [ld_write today fs data r rs hres u hurl hlen2]
  exact ⟨rfl, alist_writeFile _ _ _⟩

/-- Claim C5, witness: the page whose last item url is
`https://a/items/7/` is written to `data/2026-01-01/7.json` with the raw
results sequence as content. -/
theorem claim_C5_witness :
    (load_data "2026-01-01"
      { results := some [{ url := some "https://a/items/7/" }], next := none } fs0).2
      = Except.ok ()
    ∧ alist ((load_data "2026-01-01"
        { results := some [{ url := some "https://a/items/7/" }], next := none } fs0).1).files
        "data/2026-01-01/7.json"
      = some [{ url := some "https://a/items/7/" }] := by
  have h := claim_C5 "2026-01-01" fs0
    { results := some [{ url := some "https://a/items/7/" }], next := none }
    { url := some "https://a/items/7/" } [] rfl "https://a/items/7/" rfl (by decide)
  exact h

/-- Claim C6: two calls to `load_data` on the same day whose responses
derive the same identifier leave exactly one file at that path, holding
the second response's results sequence (last write wins). -/
theorem claim_C6 (today : String) (fs : FS) (d1 d2 : PageData) (p : String)
    (h1 : pathFor today d1 = some p) (h2 : pathFor today d2 = some p)
    (l2 : List Item) (hr2 : d2.results = some l2) :
    (load_data today d1 fs).2 = Except.ok ()
    ∧ (load_data today d2 ((load_data today d1 fs).1)).2 = Except.ok ()
    ∧ alist ((load_data today d2 ((load_data today d1 fs).1)).1).files p = some l2
    ∧ (((load_data today d2 ((load_data today d1 fs).1)).1).files.filter
        (fun kv => (kv.1 = p : Bool))).length = 1 := by
  obtain ⟨l1, _, heq1⟩ := load_data_of_pathFor today fs d1 p h1
  obtain ⟨l2x, hl2x, heq2⟩ := load_data_of_pathFor today ((load_data today d1 fs).1) d2 p h2
  have hll : l2x = l2 := Option.some.inj (hl2x.symm.trans hr2)
  subst hll
  refine ⟨by rw [heq1], by rw [heq2], ?_, ?_⟩
  · rw [heq2]
    exact alist_writeFile _ p l2x
  · rw [heq2]
    exact writeFile_count _ p l2x

/-- Claim C6, witness: two pages whose last items both yield identifier 7
end with exactly one file `data/2026-01-01/7.json` containing the second
page's results. -/
theorem claim_C6_witness :
    alist ((load_data "2026-01-01" { results := some [{ url := some "y/7/" }], next := none }
        ((load_data "2026-01-01" { results := some [{ url := some "x/7/" }], next := none }
          fs0).1)).1).files
      "data/2026-01-01/7.json" = some [{ url := some "y/7/" }]
    ∧ (((load_data "2026-01-01" { results := some [{ url := some "y/7/" }], next := none }
        ((load_data "2026-01-01" { results := some [{ url := some "x/7/" }], next := none }
          fs0).1)).1).files.filter
        (fun kv => (kv.1 = "data/2026-01-01/7.json" : Bool))).length = 1 := by
  have h := claim_C6 "2026-01-01" fs0
    { results := some [{ url := some "x/7/" }], next := none }
    { results := some [{ url := some "y/7/" }], next := none }
    "data/2026-01-01/7.json" (by decide) (by decide)
    [{ url := some "y/7/" }] rfl
  exact ⟨h.2.2.1, h.2.2.2⟩

/-- Claim C9: on a response with non-empty `results` whose last item lacks
a `url` or whose `url` splits into fewer than two segments, `load_data`
fails with an error outside the typed taxonomy (an `AttributeError` or
`IndexError`) and writes no file. -/
theorem claim_C9 (today : String) (fs : FS) (data : PageData) (r : Item) (rs : List Item)
    (hres : data.results = some (r :: rs))
    (hbad : ((r :: rs).getLast (List.cons_ne_nil r rs)).url = none
      ∨ ∃ u, ((r :: rs).getLast (List.cons_ne_nil r rs)).url = some u
          ∧ (pySplit u '/').length < 2) :
    ∃ e, (load_data today data fs).2 = Except.error e
      ∧ Exc.inTaxonomy e = false
      ∧ ((load_data today data fs).1).files = fs.files := by
  rcases hbad with hurl | ⟨u, hurl, hlen⟩
  · refine ⟨Exc.attributeError "NoneType object has no attribute split", ?_, rfl, ?_⟩
    · rw [ld_noUrl today fs data r rs hres hurl]
    · rw [ld_noUrl today fs data r rs hres hurl]
      rfl
  · refine ⟨Exc.indexError "list index out of range", ?_, rfl, ?_⟩
    · rw [ld_short today fs data r rs hres u hurl hlen]
    · rw [ld_short today fs data r rs hres u hurl hlen]
      rfl

/-- Claim C9, witness: a single result item with no `url` field gives an
untyped failure and leaves the files untouched. -/
theorem claim_C9_witness :
    ∃ e, (load_data "2026-01-01" { results := some [{ url := none }], next := some "n" } fs0).2
        = Except.error e
      ∧ Exc.inTaxonomy e = false
      ∧ ((load_data "2026-01-01"
          { results := some [{ url := none }], next := some "n" } fs0).1).files = fs0.files :=
  claim_C9 "2026-01-01" fs0 { results := some [{ url := none }], next := some "n" }
    { url := none } [] rfl (Or.inl rfl)

/-- Claim C10: when `load_data` raises the empty-results `ValueError`, the
dated output directory has nevertheless already been created by that call:
directory creation precedes the results check. -/
theorem claim_C10 (today : String) (fs : FS) (data : PageData)
    (h : resultsTruthy data.results = false) :
    (load_data today data fs).2
      = Except.error (Exc.valueError "results key is missing or empty in the provided data.")
    ∧ ("data/" ++ today) ∈ ((load_data today data fs).1).dirs := by
  rcases hres : data.results with _ | l
  · rw [ld_none today fs data hres]
    exact ⟨rfl, mkdir_p_mem fs _ _ (by simp)⟩
  · rcases l with _ | ⟨r, rs⟩
    · rw [ld_nil today fs data hres]
      exact ⟨rfl, mkdir_p_mem fs _ _ (by simp)⟩
    · rw [hres] at h
      simp [resultsTruthy] at h

/-- Claim C10, witness: a response without a `results` key aborts with the
`ValueError` yet creates `data/2026-01-01` on the empty filesystem. -/
theorem claim_C10_witness :
    (load_data "2026-01-01" { results := none, next := none } fs0).2
      = Except.error (Exc.valueError "results key is missing or empty in the provided data.")
    ∧ ("data/" ++ "2026-01-01") ∈ ((load_data "2026-01-01"
        { results := none, next := none } fs0).1).dirs :=
  claim_C10 "2026-01-01" fs0 { results := none, next := none } rfl

/-- Claim C7: as soon as an iteration of the driver loop sees an error
from the fetcher or from the writer, it appends exactly one error entry to
the log and stops with outcome FAILED: no retry, no recursion, the fetched
list grows only by this iteration's request, and when the fetch itself
failed the filesystem is untouched (no file written for that page). -/
theorem claim_C7 (w : World) (fuel : Nat) (url : Option String) (st : RunState) :
    (∀ e, (get_data w url).2 = Except.error e →
      mainLoop w (fuel + 1) url st
        = ({ st with
             fetched := st.fetched ++ (get_data w url).1
             log := st.log ++ [LogEvent.errorLog e] }, Outcome.failed e)
      ∧ ((mainLoop w (fuel + 1) url st).1).fs = st.fs)
    ∧ (∀ data e, (get_data w url).2 = Except.ok data →
        (load_data w.today data st.fs).2 = Except.error e →
        mainLoop w (fuel + 1) url st
          = ({ st with
               fetched := st.fetched ++ (get_data w url).1
               fs := (load_data w.today data st.fs).1
               log := st.log ++ [LogEvent.errorLog e] }, Outcome.failed e)) := by
  constructor
  · intro e h
    have he := mainLoop_fetch_err w fuel url st e h
    exact ⟨he, by rw [he]⟩
  · intro data e hd hl
    exact mainLoop_persist_err w fuel url st data e hd hl

/-- Claim C7, witness: in the world whose endpoint answers 500, the run
fails immediately with the `HTTPError`, logs exactly it, writes nothing,
and requested only the first-page URL. -/
theorem claim_C7_witness :
    (mainLoop w500 1 none { fs := fs0, log := [], fetched := [] }).2
        = Outcome.failed (Exc.httpError 500)
    ∧ ((mainLoop w500 1 none { fs := fs0, log := [], fetched := [] }).1).fs = fs0
    ∧ ((mainLoop w500 1 none { fs := fs0, log := [], fetched := [] }).1).log
        = [LogEvent.errorLog (Exc.httpError 500)]
    ∧ ((mainLoop w500 1 none { fs := fs0, log := [], fetched := [] }).1).fetched
        = ["https://a/?limit=50"] := by
  have h := (claim_C7 w500 0 none { fs := fs0, log := [], fetched := [] }).1
    (Exc.httpError 500) (by decide)
  refine ⟨?_, h.2, ?_, ?_⟩
  · rw [h.1]
  · rw [h.1]
    rfl
  · rw [h.1]
    decide

/-- Claim C8, counterexample: a page whose `next` field is the empty
string — a string, hence a URL string in the sense of the claim — does not
lead to a fetch of that URL: the loop logs completion and exits (Python
`if not next_url:` treats the empty string like `None`).  After the run,
the only URL ever fetched is the first page, and the outcome is DONE. -/
theorem claim_C8_cex :
    ((wEmptyNext.net "https://a/?limit=50").jsonBody
        = Except.ok { results := some [{ url := some "p/1/" }], next := some "" })
    ∧ ((main_run wEmptyNext 5 fs0).1).fetched = ["https://a/?limit=50"]
    ∧ ((main_run wEmptyNext 5 fs0).1).log = [LogEvent.doneLog]
    ∧ (main_run wEmptyNext 5 fs0).2 = Outcome.done := by
  refine ⟨by decide, by decide, by decide, by decide⟩

/-- Claim C8 (amended): after a successful fetch-and-persist iteration, a
`next` that is absent, null, or the empty string (Python truthiness) makes
the loop log completion and stop with outcome DONE and no further fetch,
while a non-empty `next` string makes the very next iteration fetch
exactly that URL. -/
theorem claim_C8 (w : World) (fuel : Nat) (url : Option String) (st : RunState)
    (data : PageData)
    (hd : (get_data w url).2 = Except.ok data)
    (hl : (load_data w.today data st.fs).2 = Except.ok ()) :
    ((data.next = none ∨ data.next = some "") →
      mainLoop w (fuel + 1) url st
        = ({ st with
             fetched := st.fetched ++ (get_data w url).1
             fs := (load_data w.today data st.fs).1
             log := st.log ++ [LogEvent.doneLog] }, Outcome.done))
    ∧ (∀ nu, data.next = some nu → nu ≠ "" →
        mainLoop w (fuel + 1) url st
          = mainLoop w fuel (some nu)
              { st with
                fetched := st.fetched ++ (get_data w url).1
                fs := (load_data w.today data st.fs).1
                log := st.log ++ [LogEvent.nextLog nu] }
        ∧ ∃ rest, ((mainLoop w (fuel + 1 + 1) url st).1).fetched
            = st.fetched ++ (get_data w url).1 ++ [nu] ++ rest) := by
  constructor
  · intro hn
    exact mainLoop_done w fuel url st data hd hl hn
  · intro nu hn hne
    refine ⟨mainLoop_next w fuel url st data nu hd hl hn hne, ?_⟩
    rw [mainLoop_next w (fuel + 1) url st data nu hd hl hn hne]
    obtain ⟨rest, hrest⟩ := mainLoop_succ_fetched w fuel (some nu)
      { st with
        fetched := st.fetched ++ (get_data w url).1
        fs := (load_data w.today data st.fs).1
        log := st.log ++ [LogEvent.nextLog nu] }
    refine ⟨rest, ?_⟩
    rw [hrest]
    have hone : (get_data w (some nu)).1 = [nu] := rfl
    rw [hone]

/-- Claim C8, witness: in the two-page world the first page's non-empty
`next` link is exactly the URL fetched by the following iteration. -/
theorem claim_C8_witness :
    ∃ rest, ((mainLoop wTwoPages 2 none { fs := fs0, log := [], fetched := [] }).1).fetched
      = ([] : List String) ++ (get_data wTwoPages none).1 ++ ["https://a/?page=2"] ++ rest := by
  have h := (claim_C8 wTwoPages 0 none { fs := fs0, log := [], fetched := [] }
      { results := some [{ url := some "p/1/" }], next := some "https://a/?page=2" }
      (by decide) (by decide)).2 "https://a/?page=2" rfl (by decide)
  exact h.2

end PokePipeline
